import Mathlib

/-
Verification of the shipyard ECS component-storage core against its
specification.  The definitions below are a shallow embedding of the
repository's Rust sources:

  * `StorageId` and its ordering mirror `src/storage/mod.rs`;
  * the bulk add is `src/storage/entity/add_component.rs` (both the
    single-view implementation and the macro-expanded tuple
    implementation, the latter expressed generically over lists);
  * the bulk remove is `src/remove.rs`;
  * `Storage` borrow dispatch is `src/storage/mod.rs` together with
    `src/unknown_storage.rs`.

Parts of the crate that the sources above call into but whose code is not
part of the provided sources (`SparseSet` internals, `PackInfo`,
`Entities::is_alive`, `AtomicRefCell`) are modelled from the specification;
each such definition carries a doc comment saying so.

Rust `TypeId` keys are modelled as `Nat`; Rust `type_name` strings as
`String`; machine integers index into lists so `Nat` suffices (no overflow
is reachable through the modelled operations).
-/

namespace Shipyard

/-- Entity identifier: the logical `(index, generation)` pair packed in the
64-bit id.  Equality is over both fields, as in the source. -/
structure EntityId where
  index : Nat
  gen : Nat
deriving DecidableEq, Repr

/-- Storage identifier, from `src/storage/mod.rs`: either the runtime type
id of a component type (modelled as a `Nat` key) or a caller supplied
`u64` (also modelled as `Nat`). -/
inductive StorageId where
  | typeId (id : Nat)
  | custom (id : Nat)
deriving DecidableEq, Repr

/-- The `Ord` implementation for `StorageId` from `src/storage/mod.rs`
lines 28-41, translated clause by clause: a `TypeId` compared to a
`Custom` yields `Greater`, a `Custom` compared to a `TypeId` yields
`Less`, and within a family the underlying keys are compared. -/
def StorageId.cmp : StorageId → StorageId → Ordering
  | .typeId id, .typeId otherId => compare id otherId
  | .typeId _, .custom _ => .gt
  | .custom id, .custom otherId => compare id otherId
  | .custom _, .typeId _ => .lt

/-- Boolean `a ≤ b` induced by `StorageId.cmp`, used by the sorts that the
bulk operations perform (`sort_unstable` in the source). -/
def StorageId.leb (a b : StorageId) : Bool :=
  match a.cmp b with
  | .gt => false
  | _ => true

/-- Insertion into a sorted list of storage ids. -/
def insertSorted (a : StorageId) : List StorageId → List StorageId
  | [] => [a]
  | b :: rest => if a.leb b then a :: b :: rest else b :: insertSorted a rest

/-- Sorting a list of storage ids; stands for the `sort_unstable` calls of
the bulk operations. -/
def sortIds (l : List StorageId) : List StorageId := l.foldr insertSorted []

/-- Modelled from the spec: `Entities` owns an ordered array indexed by
entity index whose slots hold the current generation (§3).  The free-list
bookkeeping is irrelevant to the claims and omitted. -/
structure Entities where
  generations : List Nat
deriving DecidableEq, Repr

/-- Modelled from the spec: `is_alive(id)` holds iff the generation
recorded for `id.index` matches `id.gen` (§3: an `(index, generation)`
pair identifies one logical entity; killing increments the generation). -/
def Entities.is_alive (es : Entities) (id : EntityId) : Bool :=
  es.generations.get? id.index == some id.gen

/-- Modelled from the spec: a tight pack names a set of storage type ids
and an `owned_len` cursor for this storage's packed region (§3). -/
structure TightPack where
  types : List StorageId
  owned_len : Nat
deriving DecidableEq, Repr

/-- Modelled from the spec: a loose pack distinguishes tight participants
from loose ones and keeps an `owned_len` cursor (§3). -/
structure LoosePack where
  tight_types : List StorageId
  loose_types : List StorageId
  owned_len : Nat
deriving DecidableEq, Repr

/-- Modelled from the spec: the update pack's log.  `inserted` and
`modified` are the lengths of the two leading regions of `dense`
([0, inserted) is newly inserted, [inserted, inserted+modified) is
modified, the rest unchanged); `removed` holds the removed pairs (§3). -/
structure UpdatePack (α : Type) where
  inserted : Nat
  modified : Nat
  removed : List (EntityId × α)
deriving DecidableEq, Repr

/-- The four pack variants (§3, and matched on throughout
`src/remove.rs` and `src/storage/entity/add_component.rs`). -/
inductive Pack (α : Type) where
  | NoPack
  | Tight (p : TightPack)
  | Loose (p : LoosePack)
  | Update (p : UpdatePack α)
deriving DecidableEq, Repr

/-- Pack metadata of one storage: the pack variant plus the observer
storage ids (`observer_types` in the source). -/
structure PackInfo (α : Type) where
  pack : Pack α
  observer_types : List StorageId
deriving DecidableEq, Repr

/-- The storage ids recorded in the pack metadata proper (without the
observers): the named types of a tight pack, both lists of a loose pack,
nothing for update or no pack. -/
def Pack.recordedTypes : Pack α → List StorageId
  | .Tight p => p.types
  | .Loose p => p.tight_types ++ p.loose_types
  | .Update _ => []
  | .NoPack => []

/-- Modelled from the spec: `has_all_storages(declared, additional)` is
true iff every storage id recorded in the pack metadata and in
`observer_types` appears in `declared ∪ additional` (§4.2). -/
def PackInfo.has_all_storages (pi : PackInfo α) (declared additional : List StorageId) : Bool :=
  (pi.pack.recordedTypes ++ pi.observer_types).all
    (fun t => declared.contains t || additional.contains t)

/-- Modelled from the spec: `Tight::is_packable(real_types)` inspects the
entity's actual present-in storages and, when every packed type is among
them, returns the list of storage ids to promote into the packed prefix
(§4.2). -/
def TightPack.is_packable (p : TightPack) (real_types : List StorageId) :
    Option (List StorageId) :=
  if p.types.all real_types.contains then some p.types else none

/-- Modelled from the spec: `Loose::is_packable(real_types)` requires
every tight and loose participant to be present and returns the tight
participants, whose dense prefixes mirror each other (§4.2). -/
def LoosePack.is_packable (p : LoosePack) (real_types : List StorageId) :
    Option (List StorageId) :=
  if (p.tight_types ++ p.loose_types).all real_types.contains then some p.tight_types
  else none

/-- Result of removing a component, as in the source: the value itself
when the storage is not update packed, or a marker referencing the entry
appended to the `removed` log when it is. -/
inductive OldComponent (α : Type) where
  | Owned (v : α)
  | OldValue
deriving DecidableEq, Repr

/-- Modelled from the spec: `SparseSet<T>` (§3).  `sparse` maps an entity
index to its dense position together with the generation the entry was
made for; `dense` and `data` are the parallel arrays; `pack_info` the
pack metadata. -/
structure SparseSet (α : Type) where
  sparse : List (Option (Nat × Nat))
  dense : List EntityId
  data : List α
  pack_info : PackInfo α
deriving DecidableEq, Repr

/-- Dense position of `id` when present with a matching generation. -/
def SparseSet.sparseIndex (s : SparseSet α) (id : EntityId) : Option Nat :=
  match s.sparse.get? id.index with
  | some (some (pos, g)) => if g = id.gen then some pos else none
  | _ => none

/-- Membership (§3 invariant 3): present with a matching generation. -/
def SparseSet.contains (s : SparseSet α) (id : EntityId) : Bool :=
  (s.sparseIndex id).isSome

/-- Pads a sparse array with absent entries up to length `n`. -/
def padTo (l : List (Option β)) (n : Nat) : List (Option β) :=
  l ++ List.replicate (n - l.length) none

/-- Writes one sparse entry, growing the array as needed. -/
def SparseSet.setSparse (s : SparseSet α) (idx : Nat) (v : Option (Nat × Nat)) :
    SparseSet α :=
  { s with sparse := (padTo s.sparse (idx + 1)).set idx v }

/-- Records that `id` now lives at dense position `pos`. -/
def SparseSet.setSparsePos (s : SparseSet α) (id : EntityId) (pos : Nat) : SparseSet α :=
  s.setSparse id.index (some (pos, id.gen))

/-- Swaps two positions of a list (identity when either is out of range). -/
def listSwap (l : List β) (i j : Nat) : List β :=
  match l.get? i, l.get? j with
  | some a, some b => (l.set i b).set j a
  | _, _ => l

/-- Swaps two dense positions, keeping `data` parallel and `sparse`
consistent for both moved entities. -/
def SparseSet.swapDense (s : SparseSet α) (i j : Nat) : SparseSet α :=
  match s.dense.get? i, s.dense.get? j with
  | some a, some b =>
      let t : SparseSet α :=
        { s with dense := (s.dense.set i b).set j a, data := listSwap s.data i j }
      (t.setSparsePos a j).setSparsePos b i
  | _, _ => s

/-- Modelled from the spec: `insert(value, id)` (§4.1).  Overwrites in
place when the id is present (promoting an unchanged entry to the
modified region when update packed); otherwise appends, and when update
packed places the new entry at position `inserted` — swapping the former
occupant to the tail — and grows the inserted region. -/
def SparseSet.insert (s : SparseSet α) (value : α) (id : EntityId) :
    SparseSet α × Option α :=
  match s.sparseIndex id with
  | some pos =>
      let old := s.data.get? pos
      let t : SparseSet α := { s with data := s.data.set pos value }
      match t.pack_info.pack with
      | .Update up =>
          if pos < up.inserted then (t, old)
          else if pos < up.inserted + up.modified then (t, old)
          else
            let t2 := t.swapDense pos (up.inserted + up.modified)
            ({ t2 with pack_info := { t2.pack_info with
                pack := .Update { up with modified := up.modified + 1 } } }, old)
      | _ => (t, old)
  | none =>
      let newPos := s.dense.length
      let t := (SparseSet.setSparsePos
        { s with dense := s.dense ++ [id], data := s.data ++ [value] } id newPos)
      match t.pack_info.pack with
      | .Update up =>
          let t2 := t.swapDense up.inserted newPos
          ({ t2 with pack_info := { t2.pack_info with
              pack := .Update { up with inserted := up.inserted + 1 } } }, none)
      | _ => (t, none)

/-- Modelled from the spec: `pack(id)` promotes the entity's dense
position into the packed prefix — swap with `dense[owned_len]`, increment
`owned_len` (§4.4 step 4). -/
def SparseSet.pack (s : SparseSet α) (id : EntityId) : SparseSet α :=
  match s.sparseIndex id with
  | none => s
  | some pos =>
      match s.pack_info.pack with
      | .Tight p =>
          if pos ≥ p.owned_len then
            let t := s.swapDense pos p.owned_len
            { t with pack_info := { t.pack_info with
                pack := .Tight { p with owned_len := p.owned_len + 1 } } }
          else s
      | .Loose p =>
          if pos ≥ p.owned_len then
            let t := s.swapDense pos p.owned_len
            { t with pack_info := { t.pack_info with
                pack := .Loose { p with owned_len := p.owned_len + 1 } } }
          else s
      | _ => s

/-- Modelled from the spec: `unpack(id)` swaps the entity out of the
packed prefix and decrements `owned_len` (§4.4); a no-op for storages
without a tight or loose pack and for absent entities. -/
def SparseSet.unpack (s : SparseSet α) (id : EntityId) : SparseSet α :=
  match s.sparseIndex id with
  | none => s
  | some pos =>
      match s.pack_info.pack with
      | .Tight p =>
          if pos < p.owned_len then
            let t := s.swapDense pos (p.owned_len - 1)
            { t with pack_info := { t.pack_info with
                pack := .Tight { p with owned_len := p.owned_len - 1 } } }
          else s
      | .Loose p =>
          if pos < p.owned_len then
            let t := s.swapDense pos (p.owned_len - 1)
            { t with pack_info := { t.pack_info with
                pack := .Loose { p with owned_len := p.owned_len - 1 } } }
          else s
      | _ => s

/-- Modelled from the spec: `actual_remove(id)` (§4.1).  When present:
first restore the packed-prefix invariant when the entity sits inside a
tight or loose packed prefix (swap with the slot at `owned_len - 1` and
decrement `owned_len`, §4.1 "Ordering inside dense"), then swap-remove
against the tail, clear the sparse entry, and either log the removal
(update packed, returning `OldValue`) or return the value `Owned`. -/
def SparseSet.actual_remove (s : SparseSet α) (id : EntityId) :
    SparseSet α × Option (OldComponent α) :=
  match s.sparseIndex id with
  | none => (s, none)
  | some pos0 =>
      let fixed : SparseSet α × Nat :=
        match s.pack_info.pack with
        | .Tight p =>
            if pos0 < p.owned_len then
              let t := s.swapDense pos0 (p.owned_len - 1)
              ({ t with pack_info := { t.pack_info with
                  pack := .Tight { p with owned_len := p.owned_len - 1 } } },
                p.owned_len - 1)
            else (s, pos0)
        | .Loose p =>
            if pos0 < p.owned_len then
              let t := s.swapDense pos0 (p.owned_len - 1)
              ({ t with pack_info := { t.pack_info with
                  pack := .Loose { p with owned_len := p.owned_len - 1 } } },
                p.owned_len - 1)
            else (s, pos0)
        | _ => (s, pos0)
      let t := fixed.1
      let pos := fixed.2
      let last := t.dense.length - 1
      let t2 := t.swapDense pos last
      match t2.data.get? last with
      | none => (s, none)
      | some v =>
          let t3 : SparseSet α :=
            { t2 with dense := t2.dense.take last, data := t2.data.take last }
          let t4 := t3.setSparse id.index none
          match t4.pack_info.pack with
          | .Update up =>
              ({ t4 with pack_info := { t4.pack_info with
                  pack := .Update { up with removed := up.removed ++ [(id, v)] } } },
                some .OldValue)
          | _ => (t4, some (.Owned v))

/-- Modelled from the spec: `clear_inserted` moves the inserted entries
back into the unchanged region by dropping the region bound, an O(1)
bookkeeping change (§4.3). -/
def SparseSet.clear_inserted (s : SparseSet α) : SparseSet α :=
  match s.pack_info.pack with
  | .Update up =>
      { s with pack_info := { s.pack_info with
          pack := .Update { up with inserted := 0 } } }
  | _ => s

/-- Length of the inserted region exposed by `inserted()`. -/
def SparseSet.insertedLen (s : SparseSet α) : Nat :=
  match s.pack_info.pack with
  | .Update up => up.inserted
  | _ => 0

/-- Length of the modified region exposed by `modified()`. -/
def SparseSet.modifiedLen (s : SparseSet α) : Nat :=
  match s.pack_info.pack with
  | .Update up => up.modified
  | _ => 0

/-- Modelled from the spec: the marking step of the mutable iterator at
dense position `p` — an entry outside the inserted and modified regions
is swapped to the front of the unchanged region and the modified region
grows over it (§4.3, §9 "every element visited through a mutable iterator
is conservatively marked modified"). -/
def SparseSet.markModifiedAt (s : SparseSet α) (p : Nat) : SparseSet α :=
  match s.pack_info.pack with
  | .Update up =>
      if p < up.inserted then s
      else if p < up.inserted + up.modified then s
      else if p < s.dense.length then
        let t := s.swapDense p (up.inserted + up.modified)
        { t with pack_info := { t.pack_info with
            pack := .Update { up with modified := up.modified + 1 } } }
      else s
  | _ => s

/-- Modelled from the spec: traversing the whole storage through the
mutable iterator applies the marking step at every dense position in
order (§4.3). -/
def SparseSet.iterMutMark (s : SparseSet α) : SparseSet α :=
  (List.range s.dense.length).foldl SparseSet.markModifiedAt s

/-- One mutable view's worth of state for the bulk operations: the
storage id of the component type (`TypeId::of::<T>().into()` in the
source), the `type_name` of the component type, and the sparse set the
view borrows. -/
structure Store (α : Type) where
  sid : StorageId
  name : String
  sset : SparseSet α
deriving DecidableEq, Repr

/-- The error type of `try_add_component` (`error::AddComponent`). -/
inductive AddComponentError where
  | EntityIsNotAlive
  | MissingPackStorage (name : String)
deriving DecidableEq, Repr

/-- The error type of `try_remove` (`error::Remove`); the
`EntityIsNotAlive` kind exists in the crate's error vocabulary (§7) and
is carried here so that its absence from `try_remove` results is a
meaningful statement. -/
inductive RemoveError where
  | EntityIsNotAlive
  | MissingPackStorage (name : String)
deriving DecidableEq, Repr

/-- The per-target guard of the bulk operations, from the discriminant
test in `src/remove.rs` line 108 and
`src/storage/entity/add_component.rs` line 70: the storage has a pack
other than `NoPack`, or a non-empty observer list. -/
def PackInfo.packCond (pi : PackInfo α) : Bool :=
  (match pi.pack with
   | .NoPack => false
   | _ => true) || !pi.observer_types.isEmpty

/-- The single-view implementation of `try_add_component`
(`src/storage/entity/add_component.rs` lines 22-58), clause by clause:
dead entity first, then tight and loose packs are rejected outright, and
update or no pack insert only when the observer list is empty.  The
second component of the result is the view's storage after the call. -/
def try_add_component_single (view : Store α) (component : α) (entity : EntityId)
    (entities : Entities) : Except AddComponentError Unit × Store α :=
  if entities.is_alive entity then
    match view.sset.pack_info.pack with
    | .Tight _ => (.error (.MissingPackStorage view.name), view)
    | .Loose _ => (.error (.MissingPackStorage view.name), view)
    | .Update _ =>
        if view.sset.pack_info.observer_types.isEmpty then
          (.ok (), { view with sset := (view.sset.insert component entity).1 })
        else (.error (.MissingPackStorage view.name), view)
    | .NoPack =>
        if view.sset.pack_info.observer_types.isEmpty then
          (.ok (), { view with sset := (view.sset.insert component entity).1 })
        else (.error (.MissingPackStorage view.name), view)
  else (.error (.EntityIsNotAlive), view)

/-- The check loop of the tuple `try_add_component`
(`src/storage/entity/add_component.rs` lines 86-103): walk the targets in
order, and at each one either fail with its type name when
`has_all_storages` rejects, or extend the accumulated `should_pack` list
with the ids `is_packable` reports (skipping targets whose own id was
already collected). -/
def buildShouldPack (ts : List (Store α)) (storage_ids add_types real_types : List StorageId)
    (acc : List StorageId) : Except String (List StorageId) :=
  match ts with
  | [] => .ok acc
  | t :: rest =>
      if t.sset.pack_info.has_all_storages storage_ids add_types then
        let acc2 :=
          if acc.contains t.sid then acc
          else
            match t.sset.pack_info.pack with
            | .Tight p =>
                match p.is_packable real_types with
                | some tys => acc ++ tys
                | none => acc
            | .Loose p =>
                match p.is_packable real_types with
                | some tys => acc ++ tys
                | none => acc
            | _ => acc
        buildShouldPack rest storage_ids add_types real_types acc2
      else .error t.name

/-- The tuple implementation of `try_add_component`
(`src/storage/entity/add_component.rs` lines 64-123), expressed over a
list of target views and a list of additionally surfaced views (the
macro expands one implementation per arity; the list form is the
arity-generic shape).  Returns the result together with the targets and
additional views after the call; the source's early `return Err` paths
run before any mutation statement, so those paths carry the inputs
through unchanged. -/
def try_add_component (targets adds : List (Store α)) (components : List α)
    (entity : EntityId) (entities : Entities) :
    Except AddComponentError Unit × List (Store α) × List (Store α) :=
  if entities.is_alive entity then
    let checkRes : Except String (List StorageId) :=
      if targets.any (fun t => t.sset.pack_info.packCond) then
        let storage_ids := sortIds (targets.map (fun t => t.sid))
        let add_types := sortIds (adds.map (fun a => a.sid))
        let real_types := sortIds (storage_ids ++
          (adds.filter (fun a => a.sset.contains entity)).map (fun a => a.sid))
        buildShouldPack targets storage_ids add_types real_types []
      else .ok []
    match checkRes with
    | .error n => (.error (.MissingPackStorage n), targets, adds)
    | .ok should_pack =>
        let adds2 := adds.map (fun a =>
          if should_pack.contains a.sid then { a with sset := a.sset.pack entity } else a)
        let targets2 := (targets.zip components).map (fun tc =>
          let t := tc.1
          let s := (t.sset.insert tc.2 entity).1
          let s2 := if should_pack.contains t.sid then s.pack entity else s
          { t with sset := s2 })
        (.ok (), targets2, adds2)
  else (.error (.EntityIsNotAlive), targets, adds)

/-- The check loop of `try_remove` (`src/remove.rs` lines 115-132): walk
the targets in order; each target either fails with its type name when
`has_all_storages` rejects, or extends `should_unpack` with the sibling
ids its pack variant dictates (tight types, loose tight types, and in
every variant the observers). -/
def buildShouldUnpack (ts : List (Store α)) (types add_types : List StorageId)
    (acc : List StorageId) : Except String (List StorageId) :=
  match ts with
  | [] => .ok acc
  | t :: rest =>
      if t.sset.pack_info.has_all_storages types add_types then
        let acc2 := acc ++
          (match t.sset.pack_info.pack with
           | .Tight p => p.types ++ t.sset.pack_info.observer_types
           | .Loose p => p.tight_types ++ t.sset.pack_info.observer_types
           | .Update _ => t.sset.pack_info.observer_types
           | .NoPack => t.sset.pack_info.observer_types)
        buildShouldUnpack rest types add_types acc2
      else .error t.name

/-- The tuple implementation of `try_remove` (`src/remove.rs` lines
106-144), expressed over a list of target views and a list of
additionally surfaced views.  When some target carries pack metadata or
observers, the pack checks build `should_unpack` (failing with
`MissingPackStorage` before anything is touched), the additional views
named in it are unpacked, and finally `actual_remove` runs on every
target.  Returns the result together with both view lists after the
call. -/
def try_remove (targets adds : List (Store α)) (entity : EntityId) :
    Except RemoveError (List (Option (OldComponent α))) × List (Store α) × List (Store α) :=
  let checkRes : Except String (List StorageId) :=
    if targets.any (fun t => t.sset.pack_info.packCond) then
      buildShouldUnpack targets (sortIds (targets.map (fun t => t.sid)))
        (sortIds (adds.map (fun a => a.sid))) []
    else .ok []
  match checkRes with
  | .error n => (.error (.MissingPackStorage n), targets, adds)
  | .ok should_unpack =>
      let adds2 := adds.map (fun a =>
        if should_unpack.contains a.sid then { a with sset := a.sset.unpack entity } else a)
      let pairs := targets.map (fun t =>
        let r := t.sset.actual_remove entity
        ({ t with sset := r.1 }, r.2))
      (.ok (pairs.map (fun pr => pr.2)), pairs.map (fun pr => pr.1), adds2)

/-- Borrow error vocabulary (`error::Borrow`): `Shared` for a denied
shared borrow, `Unique` for a denied exclusive borrow, `WrongThread` for
the thread-affinity denial. -/
inductive BorrowError where
  | Shared
  | Unique
  | WrongThread
deriving DecidableEq, Repr

/-- Borrow state of an `AtomicRefCell`: unborrowed, N shared borrowers,
or one exclusive borrower (§4.6). -/
inductive BorrowState where
  | free
  | shared (n : Nat)
  | exclusive
deriving DecidableEq, Repr

/-- Modelled from the spec: `AtomicRefCell::try_borrow` succeeds iff
there is no exclusive borrower (§4.6); a denial reports `Shared`. -/
def tryBorrowCell : BorrowState → Except BorrowError BorrowState
  | .free => .ok (.shared 1)
  | .shared n => .ok (.shared (n + 1))
  | .exclusive => .error .Shared

/-- Modelled from the spec: `AtomicRefCell::try_borrow_mut` succeeds iff
there are no borrowers at all (§4.6); a denial reports `Unique`. -/
def tryBorrowMutCell : BorrowState → Except BorrowError BorrowState
  | .free => .ok .exclusive
  | .shared _ => .error .Unique
  | .exclusive => .error .Unique

/-- The type-erased content of a storage cell
(`src/unknown_storage.rs`): a component sparse set, a unique resource, or
the entities table; the first two are tagged with the name of the Rust
type they were erased from, which the downcasts compare against. -/
inductive CellContent (α : Type) where
  | sparseSetOf (tyName : String) (s : SparseSet α)
  | uniqueOf (tyName : String) (v : α)
  | entitiesOf (e : Entities)
deriving DecidableEq, Repr

/-- A `Storage` cell (`src/storage/mod.rs` line 64): an `AtomicRefCell`
over a type-erased storage, modelled as the content plus the cell's
borrow state. -/
structure StorageCell (α : Type) where
  content : CellContent α
  state : BorrowState
deriving DecidableEq, Repr

/-- Error type of the `Storage` accessors (`error::GetStorage` as used in
`src/storage/mod.rs`). -/
inductive GetStorage where
  | StorageBorrow (name : String) (b : BorrowError)
  | Unique (name : String) (b : BorrowError)
  | NonUnique (name : String) (b : BorrowError)
deriving DecidableEq, Repr

/-- `Storage::sparse_set` (`src/storage/mod.rs` lines 144-162): shared
borrow of the cell, mapping a borrow denial to `StorageBorrow`, then
downcast to `SparseSet<T>`, mapping a failed downcast to the `Unique`
error with `Borrow::Shared`. -/
def Storage.sparse_set (c : StorageCell α) (req : String) :
    Except GetStorage (SparseSet α) :=
  match tryBorrowCell c.state with
  | .error b => .error (.StorageBorrow req b)
  | .ok _ =>
      match c.content with
      | .sparseSetOf ty s => if ty = req then .ok s else .error (.Unique req .Shared)
      | _ => .error (.Unique req .Shared)

/-- `Storage::sparse_set_mut` (`src/storage/mod.rs` lines 164-182):
exclusive borrow, then downcast, a failed downcast yielding the `Unique`
error with `Borrow::Unique`. -/
def Storage.sparse_set_mut (c : StorageCell α) (req : String) :
    Except GetStorage (SparseSet α) :=
  match tryBorrowMutCell c.state with
  | .error b => .error (.StorageBorrow req b)
  | .ok _ =>
      match c.content with
      | .sparseSetOf ty s => if ty = req then .ok s else .error (.Unique req .Unique)
      | _ => .error (.Unique req .Unique)

/-- `Storage::unique` (`src/storage/mod.rs` lines 195-211): shared
borrow, then downcast to the unique resource, a failed downcast yielding
`NonUnique` with `Borrow::Shared`. -/
def Storage.unique (c : StorageCell α) (req : String) : Except GetStorage α :=
  match tryBorrowCell c.state with
  | .error b => .error (.StorageBorrow req b)
  | .ok _ =>
      match c.content with
      | .uniqueOf ty v => if ty = req then .ok v else .error (.NonUnique req .Shared)
      | _ => .error (.NonUnique req .Shared)

/-- `Storage::unique_mut` (`src/storage/mod.rs` lines 212-228):
exclusive borrow, then downcast, a failed downcast yielding `NonUnique`
with `Borrow::Unique`. -/
def Storage.unique_mut (c : StorageCell α) (req : String) : Except GetStorage α :=
  match tryBorrowMutCell c.state with
  | .error b => .error (.StorageBorrow req b)
  | .ok _ =>
      match c.content with
      | .uniqueOf ty v => if ty = req then .ok v else .error (.NonUnique req .Unique)
      | _ => .error (.NonUnique req .Unique)

/-- Length of the packed prefix: the `owned_len` cursor of a tight or
loose pack, zero otherwise. -/
def SparseSet.ownedLen (s : SparseSet α) : Nat :=
  match s.pack_info.pack with
  | .Tight p => p.owned_len
  | .Loose p => p.owned_len
  | _ => 0

section Lemmas

variable {α : Type}

/-- Swapping dense positions never changes the pack metadata. -/
theorem swapDense_pack_info (s : SparseSet α) (i j : Nat) :
    (s.swapDense i j).pack_info = s.pack_info := by
  unfold SparseSet.swapDense
  cases h1 : s.dense.get? i <;> cases h2 : s.dense.get? j <;>
    simp [SparseSet.setSparsePos, SparseSet.setSparse]

/-- Swapping dense positions preserves the dense length. -/
theorem swapDense_dense_length (s : SparseSet α) (i j : Nat) :
    (s.swapDense i j).dense.length = s.dense.length := by
  unfold SparseSet.swapDense
  cases h1 : s.dense.get? i <;> cases h2 : s.dense.get? j <;>
    simp [SparseSet.setSparsePos, SparseSet.setSparse]

/-- One marking step at the boundary of the modified region grows that
region by one and preserves the dense length. -/
theorem markModifiedAt_step (s : SparseSet α) (ic mc : Nat)
    (r : List (EntityId × α)) (p : Nat)
    (hp : s.pack_info.pack = .Update ⟨ic, mc, r⟩) (hpe : p = ic + mc)
    (hlt : p < s.dense.length) :
    (s.markModifiedAt p).pack_info.pack = .Update ⟨ic, mc + 1, r⟩ ∧
      (s.markModifiedAt p).dense.length = s.dense.length := by
  subst hpe
  have hni : ¬ (ic + mc < ic) := by omega
  have hnm : ¬ (ic + mc < ic + mc) := by omega
  simp only [SparseSet.markModifiedAt, hp, if_neg hni, if_neg hnm, if_pos hlt]
  refine ⟨?_, ?_⟩ <;> simp [swapDense_pack_info, swapDense_dense_length]

/-- A storage whose `has_all_storages` check can fail at all has pack
metadata or observers, hence satisfies the bulk operations' per-target
guard. -/
theorem has_all_false_packCond (pi : PackInfo α) (a b : List StorageId)
    (h : pi.has_all_storages a b = false) : pi.packCond = true := by
  cases hp : pi.pack with
  | NoPack =>
      unfold PackInfo.packCond
      rw [hp]
      simp only [Bool.false_or]
      cases ho : pi.observer_types with
      | nil =>
          exfalso
          unfold PackInfo.has_all_storages at h
          rw [hp, ho] at h
          simp [Pack.recordedTypes] at h
      | cons x xs => simp
  | Tight p => simp [PackInfo.packCond, hp]
  | Loose p => simp [PackInfo.packCond, hp]
  | Update p => simp [PackInfo.packCond, hp]

/-- The add-side check loop fails with the name of the first target whose
`has_all_storages` check rejects, whatever was accumulated before it. -/
theorem buildShouldPack_error (post : List (Store α)) (t : Store α)
    (a b r : List StorageId)
    (ht : t.sset.pack_info.has_all_storages a b = false) :
    ∀ (pre : List (Store α)) (acc : List StorageId),
      (∀ p ∈ pre, p.sset.pack_info.has_all_storages a b = true) →
      buildShouldPack (pre ++ t :: post) a b r acc = .error t.name := by
  intro pre
  induction pre with
  | nil =>
      intro acc _
      simp [buildShouldPack, ht]
  | cons p ps ih =>
      intro acc hall
      have hp : p.sset.pack_info.has_all_storages a b = true :=
        hall p (List.mem_cons_self p ps)
      simp only [List.cons_append, buildShouldPack, hp, if_true]
      exact ih _ (fun q hq => hall q (List.mem_cons_of_mem p hq))

/-- The remove-side check loop fails with the name of the first target
whose `has_all_storages` check rejects. -/
theorem buildShouldUnpack_error (post : List (Store α)) (t : Store α)
    (a b : List StorageId)
    (ht : t.sset.pack_info.has_all_storages a b = false) :
    ∀ (pre : List (Store α)) (acc : List StorageId),
      (∀ p ∈ pre, p.sset.pack_info.has_all_storages a b = true) →
      buildShouldUnpack (pre ++ t :: post) a b acc = .error t.name := by
  intro pre
  induction pre with
  | nil =>
      intro acc _
      simp [buildShouldUnpack, ht]
  | cons p ps ih =>
      intro acc hall
      have hp : p.sset.pack_info.has_all_storages a b = true :=
        hall p (List.mem_cons_self p ps)
      simp only [List.cons_append, buildShouldUnpack, hp, if_true]
      exact ih _ (fun q hq => hall q (List.mem_cons_of_mem p hq))

end Lemmas

/-- C7 counterexample: a typed id compared to a custom id does not yield
`Less` — the source's `Ord` implementation yields `Greater` there. -/
theorem c7_typed_vs_custom_not_less :
    Shipyard.StorageId.cmp (.typeId 0) (.custom 0) ≠ Ordering.lt := by decide

/-- C7 (amended): all custom ids compare less than all typed ids — a
typed id against a custom id yields `Greater`, a custom id against a
typed id yields `Less` — and within each family `cmp` agrees with the
natural ordering of the underlying key. -/
theorem c7_storage_id_ordering (a b : Nat) :
    StorageId.cmp (.typeId a) (.custom b) = .gt ∧
      StorageId.cmp (.custom a) (.typeId b) = .lt ∧
      StorageId.cmp (.typeId a) (.typeId b) = compare a b ∧
      StorageId.cmp (.custom a) (.custom b) = compare a b :=
  ⟨rfl, rfl, rfl, rfl⟩

/-- A fresh update-packed storage (scenario S2). -/
def c6_fresh : SparseSet Nat := ⟨[], [], [], ⟨.Update ⟨0, 0, []⟩, []⟩⟩

/-- The storage after inserting the three entities with values 0, 1, 2. -/
def c6_afterInserts : SparseSet Nat :=
  (((c6_fresh.insert 0 ⟨0, 0⟩).1.insert 1 ⟨1, 0⟩).1.insert 2 ⟨2, 0⟩).1

/-- The storage after `clear_inserted`. -/
def c6_cleared : SparseSet Nat := c6_afterInserts.clear_inserted

/-- C6: after inserting three new entities into a freshly update-packed
storage the inserted region has length 3 and the modified region length
0; after `clear_inserted` both regions have length 0 while the three
components remain present and iterable. -/
theorem c6_update_insert_then_clear :
    c6_afterInserts.insertedLen = 3 ∧ c6_afterInserts.modifiedLen = 0 ∧
      c6_cleared.insertedLen = 0 ∧ c6_cleared.modifiedLen = 0 ∧
      c6_cleared.dense = [⟨0, 0⟩, ⟨1, 0⟩, ⟨2, 0⟩] ∧
      c6_cleared.data = [0, 1, 2] ∧
      c6_cleared.contains ⟨0, 0⟩ = true ∧
      c6_cleared.contains ⟨1, 0⟩ = true ∧
      c6_cleared.contains ⟨2, 0⟩ = true := by decide

/-- Storage id standing for `usize` in the S4 scenario. -/
def c4_uid : StorageId := .typeId 0

/-- Storage id standing for `u32` in the S4 scenario. -/
def c4_wid : StorageId := .typeId 1

/-- The entity of the S4 scenario. -/
def c4_entity : EntityId := ⟨0, 0⟩

/-- The tight pack shared by both storages of the S4 scenario. -/
def c4_pack : Pack Nat := .Tight ⟨sortIds [c4_uid, c4_wid], 0⟩

/-- The `usize` view before the add. -/
def c4_usizes : Store Nat := ⟨c4_uid, "usize", ⟨[], [], [], ⟨c4_pack, []⟩⟩⟩

/-- The `u32` view before the add. -/
def c4_u32s : Store Nat := ⟨c4_wid, "u32", ⟨[], [], [], ⟨c4_pack, []⟩⟩⟩

/-- The entity table with the one live entity. -/
def c4_entities : Entities := ⟨[0]⟩

/-- The target views after adding `(0, 1)` to the entity. -/
def c4_added : List (Store Nat) :=
  (try_add_component [c4_usizes, c4_u32s] [] [0, 1] c4_entity c4_entities).2.1

/-- The `usize` view after the add. -/
def c4_usizes1 : Store Nat := c4_added.headD c4_usizes

/-- The `u32` view after the add. -/
def c4_u32s1 : Store Nat := (c4_added.drop 1).headD c4_u32s

/-- Removing `(usize,)` while surfacing the `u32` view additionally. -/
def c4_removed :
    Except RemoveError (List (Option (OldComponent Nat))) ×
      List (Store Nat) × List (Store Nat) :=
  try_remove [c4_usizes1] [c4_u32s1] c4_entity

/-- The `usize` view after the remove. -/
def c4_usizes2 : Store Nat := c4_removed.2.1.headD c4_usizes

/-- The `u32` view after the remove. -/
def c4_u32s2 : Store Nat := c4_removed.2.2.headD c4_u32s

/-- C4: in the tight-packed `usize`/`u32` scenario, the add succeeds and
packs the entity into both prefixes; removing `(usize,)` while surfacing
both views yields `(Some(OldComponent::Owned(0)),)`, the `usize`
component is gone, and the entity is no longer inside the `u32`
storage's packed prefix, `owned_len` having decreased to 0 in both
participating storages. -/
theorem c4_tight_pack_remove :
    (try_add_component [c4_usizes, c4_u32s] [] [0, 1] c4_entity c4_entities).1 =
        .ok () ∧
      c4_usizes1.sset.contains c4_entity = true ∧
      c4_u32s1.sset.contains c4_entity = true ∧
      c4_usizes1.sset.ownedLen = 1 ∧ c4_u32s1.sset.ownedLen = 1 ∧
      c4_removed.1 = .ok [some (.Owned 0)] ∧
      c4_usizes2.sset.contains c4_entity = false ∧
      c4_u32s2.sset.contains c4_entity = true ∧
      c4_u32s2.sset.ownedLen = 0 ∧
      (c4_u32s2.sset.dense.take c4_u32s2.sset.ownedLen).contains c4_entity = false ∧
      c4_usizes2.sset.ownedLen = 0 :=
  ⟨rfl, rfl, rfl, rfl, rfl, rfl, rfl, rfl, rfl, rfl, rfl⟩

/-- C5: in an update-packed storage holding exactly three entities whose
inserted and modified regions have been cleared, traversing all elements
through the mutable iterator moves all three entities into the modified
region while the inserted region stays empty. -/
theorem c5_mut_iteration_marks_modified (s : SparseSet Nat)
    (r : List (EntityId × Nat))
    (hp : s.pack_info.pack = .Update ⟨0, 0, r⟩) (hlen : s.dense.length = 3) :
    s.iterMutMark.modifiedLen = 3 ∧ s.iterMutMark.insertedLen = 0 := by
  obtain ⟨h0p, h0l⟩ := markModifiedAt_step s 0 0 r 0 hp rfl (by omega)
  obtain ⟨h1p, h1l⟩ :=
    markModifiedAt_step (s.markModifiedAt 0) 0 1 r 1 h0p rfl (by omega)
  obtain ⟨h2p, h2l⟩ :=
    markModifiedAt_step ((s.markModifiedAt 0).markModifiedAt 1) 0 2 r 2 h1p rfl
      (by omega)
  unfold SparseSet.iterMutMark
  rw [hlen]
  have hr : List.range 3 = [0, 1, 2] := rfl
  rw [hr]
  simp only [List.foldl_cons, List.foldl_nil]
  unfold SparseSet.modifiedLen SparseSet.insertedLen
  rw [h2p]
  exact ⟨rfl, rfl⟩

/-- A concrete cleared update-packed storage with three entities, used to
instantiate the mutable-iteration theorem. -/
def c5_storage : SparseSet Nat :=
  ⟨[some (0, 0), some (1, 0), some (2, 0)], [⟨0, 0⟩, ⟨1, 0⟩, ⟨2, 0⟩], [0, 1, 2],
    ⟨.Update ⟨0, 0, []⟩, []⟩⟩

/-- Witness for C5 at a concrete storage. -/
theorem c5_witness :
    c5_storage.pack_info.pack = .Update ⟨0, 0, []⟩ ∧
      c5_storage.dense.length = 3 ∧
      (c5_storage.iterMutMark.modifiedLen = 3 ∧
        c5_storage.iterMutMark.insertedLen = 0) :=
  ⟨rfl, rfl, c5_mut_iteration_marks_modified c5_storage [] rfl rfl⟩

/-- C2: a bulk add on an entity whose generation no longer matches fails
with `EntityIsNotAlive` and writes nothing, in both the tuple
implementation (whatever the targets' packs, so a dead entity wins over
any missing pack sibling) and the single-view implementation. -/
theorem c2_dead_entity_rejected (targets adds : List (Store Nat))
    (components : List Nat) (view : Store Nat) (component : Nat)
    (entity : EntityId) (entities : Entities)
    (h : entities.is_alive entity = false) :
    try_add_component targets adds components entity entities =
        (.error .EntityIsNotAlive, targets, adds) ∧
      try_add_component_single view component entity entities =
        (.error .EntityIsNotAlive, view) := by
  constructor
  · simp [try_add_component, h]
  · simp [try_add_component_single, h]

/-- An entity table with no live slot. -/
def c2_deadEntities : Entities := ⟨[]⟩

/-- A tight-packed single view, showing the dead-entity check precedes
the pack checks. -/
def c2_view : Store Nat :=
  ⟨.typeId 0, "t", ⟨[], [], [], ⟨.Tight ⟨[.typeId 0, .typeId 1], 0⟩, []⟩⟩⟩

/-- Witness for C2 at a concrete dead entity. -/
theorem c2_witness :
    c2_deadEntities.is_alive ⟨0, 0⟩ = false ∧
      (try_add_component ([] : List (Store Nat)) [] [] ⟨0, 0⟩ c2_deadEntities =
          (.error .EntityIsNotAlive, [], []) ∧
        try_add_component_single c2_view 5 ⟨0, 0⟩ c2_deadEntities =
          (.error .EntityIsNotAlive, c2_view)) :=
  ⟨rfl, c2_dead_entity_rejected [] [] [] c2_view 5 ⟨0, 0⟩ c2_deadEntities rfl⟩

/-- C10: on a live entity, the single-view add categorically rejects
tight and loose packed targets with `MissingPackStorage`, rejects update
and unpacked targets whenever the observer list is non-empty, leaves the
storage unchanged in every rejecting case, and only an unobserved
`NoPack` or `Update` storage accepts the insert. -/
theorem c10_single_view_pack_rejection (view : Store Nat) (component : Nat)
    (entity : EntityId) (entities : Entities)
    (halive : entities.is_alive entity = true) :
    (∀ p, view.sset.pack_info.pack = .Tight p →
        try_add_component_single view component entity entities =
          (.error (.MissingPackStorage view.name), view)) ∧
      (∀ p, view.sset.pack_info.pack = .Loose p →
        try_add_component_single view component entity entities =
          (.error (.MissingPackStorage view.name), view)) ∧
      (view.sset.pack_info.pack = .NoPack →
        view.sset.pack_info.observer_types ≠ [] →
        try_add_component_single view component entity entities =
          (.error (.MissingPackStorage view.name), view)) ∧
      (∀ p, view.sset.pack_info.pack = .Update p →
        view.sset.pack_info.observer_types ≠ [] →
        try_add_component_single view component entity entities =
          (.error (.MissingPackStorage view.name), view)) ∧
      (view.sset.pack_info.pack = .NoPack →
        view.sset.pack_info.observer_types = [] →
        try_add_component_single view component entity entities =
          (.ok (), { view with sset := (view.sset.insert component entity).1 })) ∧
      (∀ p, view.sset.pack_info.pack = .Update p →
        view.sset.pack_info.observer_types = [] →
        try_add_component_single view component entity entities =
          (.ok (), { view with sset := (view.sset.insert component entity).1 })) := by
  refine ⟨?_, ?_, ?_, ?_, ?_, ?_⟩
  · intro p hp
    simp [try_add_component_single, halive, hp]
  · intro p hp
    simp [try_add_component_single, halive, hp]
  · intro hp hobs
    cases ho : view.sset.pack_info.observer_types with
    | nil => exact absurd ho hobs
    | cons x xs => simp [try_add_component_single, halive, hp, ho]
  · intro p hp hobs
    cases ho : view.sset.pack_info.observer_types with
    | nil => exact absurd ho hobs
    | cons x xs => simp [try_add_component_single, halive, hp, ho]
  · intro hp hobs
    simp [try_add_component_single, halive, hp, hobs]
  · intro p hp hobs
    simp [try_add_component_single, halive, hp, hobs]

/-- Entity table for the single-view rejection witness. -/
def c10_entities : Entities := ⟨[0]⟩

/-- A tight-packed single view for the witness. -/
def c10_view : Store Nat :=
  ⟨.typeId 0, "comp", ⟨[], [], [], ⟨.Tight ⟨[.typeId 0, .typeId 1], 0⟩, []⟩⟩⟩

/-- Witness for C10: the tight-packed case at a live entity. -/
theorem c10_witness :
    c10_entities.is_alive ⟨0, 0⟩ = true ∧
      c10_view.sset.pack_info.pack = .Tight ⟨[.typeId 0, .typeId 1], 0⟩ ∧
      try_add_component_single c10_view 7 ⟨0, 0⟩ c10_entities =
        (.error (.MissingPackStorage "comp"), c10_view) :=
  ⟨rfl, rfl,
    (c10_single_view_pack_rejection c10_view 7 ⟨0, 0⟩ c10_entities rfl).1
      ⟨[.typeId 0, .typeId 1], 0⟩ rfl⟩

/-- C1: a bulk add on a live entity over targets whose first offender's
pack metadata or observer list names a storage id outside the surfaced
ids (targets and additional) fails with `MissingPackStorage` carrying the
first offender's type name, every storage left exactly as before. -/
theorem c1_bulk_add_missing_pack (pre post adds : List (Store Nat))
    (t : Store Nat) (components : List Nat) (entity : EntityId)
    (entities : Entities) (halive : entities.is_alive entity = true)
    (hpre : ∀ p ∈ pre, p.sset.pack_info.has_all_storages
        (sortIds ((pre ++ t :: post).map (fun x => x.sid)))
        (sortIds (adds.map (fun a => a.sid))) = true)
    (ht : t.sset.pack_info.has_all_storages
        (sortIds ((pre ++ t :: post).map (fun x => x.sid)))
        (sortIds (adds.map (fun a => a.sid))) = false) :
    try_add_component (pre ++ t :: post) adds components entity entities =
      (.error (.MissingPackStorage t.name), pre ++ t :: post, adds) := by
  have hcond : t.sset.pack_info.packCond = true := has_all_false_packCond _ _ _ ht
  have hany : ((pre ++ t :: post).any fun st => st.sset.pack_info.packCond) = true := by
    apply List.any_eq_true.mpr
    exact ⟨t, by simp, hcond⟩
  have hbuild := buildShouldPack_error post t
      (sortIds ((pre ++ t :: post).map (fun x => x.sid)))
      (sortIds (adds.map (fun a => a.sid)))
      (sortIds (sortIds ((pre ++ t :: post).map (fun x => x.sid)) ++
        (adds.filter (fun a => a.sset.contains entity)).map (fun a => a.sid)))
      ht pre [] hpre
  simp only [try_add_component, halive, hany, hbuild, if_true, eq_self_iff_true]

/-- The `A` view of the S5 scenario: tight packed with a sibling `B`
that the caller does not surface. -/
def c1_aStore : Store Nat :=
  ⟨.typeId 0, "A", ⟨[], [], [], ⟨.Tight ⟨[.typeId 0, .typeId 1], 0⟩, []⟩⟩⟩

/-- Entity table for the S5 witness. -/
def c1_entities : Entities := ⟨[0]⟩

/-- Witness for C1: scenario S5, adding only through the `A` view. -/
theorem c1_witness :
    c1_entities.is_alive ⟨0, 0⟩ = true ∧
      c1_aStore.sset.pack_info.has_all_storages
          (sortIds ([c1_aStore].map (fun x => x.sid)))
          (sortIds (([] : List (Store Nat)).map (fun a => a.sid))) = false ∧
      try_add_component [c1_aStore] [] [3] ⟨0, 0⟩ c1_entities =
        (.error (.MissingPackStorage "A"), [c1_aStore], []) :=
  ⟨rfl, by decide,
    c1_bulk_add_missing_pack [] [] [] c1_aStore [3] ⟨0, 0⟩ c1_entities rfl
      (by intro p hp; exact absurd hp (List.not_mem_nil p)) (by decide)⟩

/-- C3: a bulk remove over targets whose first offender's
`has_all_storages` check fails returns `MissingPackStorage` with that
target's type name, while no storage is unpacked and no `actual_remove`
is performed on any storage. -/
theorem c3_bulk_remove_missing_pack (pre post adds : List (Store Nat))
    (t : Store Nat) (entity : EntityId)
    (hpre : ∀ p ∈ pre, p.sset.pack_info.has_all_storages
        (sortIds ((pre ++ t :: post).map (fun x => x.sid)))
        (sortIds (adds.map (fun a => a.sid))) = true)
    (ht : t.sset.pack_info.has_all_storages
        (sortIds ((pre ++ t :: post).map (fun x => x.sid)))
        (sortIds (adds.map (fun a => a.sid))) = false) :
    try_remove (pre ++ t :: post) adds entity =
      (.error (.MissingPackStorage t.name), pre ++ t :: post, adds) := by
  have hcond : t.sset.pack_info.packCond = true := has_all_false_packCond _ _ _ ht
  have hany : ((pre ++ t :: post).any fun st => st.sset.pack_info.packCond) = true := by
    apply List.any_eq_true.mpr
    exact ⟨t, by simp, hcond⟩
  have hbuild := buildShouldUnpack_error post t
      (sortIds ((pre ++ t :: post).map (fun x => x.sid)))
      (sortIds (adds.map (fun a => a.sid)))
      ht pre [] hpre
  simp only [try_remove, hany, hbuild, if_true, eq_self_iff_true]

/-- A tight-packed remove target whose sibling is not surfaced. -/
def c3_aStore : Store Nat :=
  ⟨.typeId 0, "A", ⟨[], [], [], ⟨.Tight ⟨[.typeId 0, .typeId 1], 0⟩, []⟩⟩⟩

/-- Witness for C3: removing through a tight-packed view without its
sibling. -/
theorem c3_witness :
    c3_aStore.sset.pack_info.has_all_storages
        (sortIds ([c3_aStore].map (fun x => x.sid)))
        (sortIds (([] : List (Store Nat)).map (fun a => a.sid))) = false ∧
      try_remove [c3_aStore] [] ⟨0, 0⟩ =
        (.error (.MissingPackStorage "A"), [c3_aStore], []) :=
  ⟨by decide,
    c3_bulk_remove_missing_pack [] [] [] c3_aStore ⟨0, 0⟩
      (by intro p hp; exact absurd hp (List.not_mem_nil p)) (by decide)⟩

/-- C9: `try_remove` never verifies entity liveness — no input yields
`EntityIsNotAlive` — and when every target has `NoPack` and no observers
the result is `Ok` with each element the corresponding storage's
`actual_remove` result, which is `None` whenever that storage does not
contain the id with a matching generation. -/
theorem c9_remove_never_checks_liveness :
    (∀ (targets adds : List (Store Nat)) (entity : EntityId),
        (try_remove targets adds entity).1 ≠ .error .EntityIsNotAlive) ∧
      (∀ (targets adds : List (Store Nat)) (entity : EntityId),
        (∀ t ∈ targets, t.sset.pack_info.pack = .NoPack ∧
            t.sset.pack_info.observer_types = []) →
        try_remove targets adds entity =
          (.ok (targets.map (fun t => (t.sset.actual_remove entity).2)),
            targets.map (fun t => { t with sset := (t.sset.actual_remove entity).1 }),
            adds)) ∧
      (∀ (s : SparseSet Nat) (id : EntityId), s.contains id = false →
        (s.actual_remove id).2 = none) := by
  refine ⟨?_, ?_, ?_⟩
  · intro targets adds entity
    simp only [try_remove]
    split
    · simp
    · simp
  · intro targets adds entity hnp
    have hany : (targets.any fun st => st.sset.pack_info.packCond) = false := by
      rw [List.any_eq_false]
      intro t htmem
      obtain ⟨hp, ho⟩ := hnp t htmem
      simp [PackInfo.packCond, hp, ho]
    simp [try_remove, hany, List.map_map, Function.comp]
  · intro s id h
    cases hx : s.sparseIndex id with
    | none => simp [SparseSet.actual_remove, hx]
    | some p =>
        rw [SparseSet.contains, hx] at h
        simp at h

/-- An unpacked single-target view for the remove witness. -/
def c9_store : Store Nat := ⟨.typeId 0, "t", ⟨[], [], [], ⟨.NoPack, []⟩⟩⟩

/-- Witness for C9 at a concrete unpacked storage and entity. -/
theorem c9_witness :
    (try_remove [c9_store] [] ⟨0, 0⟩).1 ≠ .error .EntityIsNotAlive ∧
      try_remove [c9_store] [] ⟨0, 0⟩ = (.ok [none], [c9_store], []) ∧
      (c9_store.sset.actual_remove ⟨0, 0⟩).2 = none :=
  ⟨c9_remove_never_checks_liveness.1 [c9_store] [] ⟨0, 0⟩,
    c9_remove_never_checks_liveness.2.1 [c9_store] [] ⟨0, 0⟩
      (by
        intro t ht
        rw [List.mem_singleton] at ht
        subst ht
        exact ⟨rfl, rfl⟩),
    c9_remove_never_checks_liveness.2.2 c9_store.sset ⟨0, 0⟩ rfl⟩

/-- C8: a component-storage borrow of a cell holding a unique resource
fails with the `Unique` kind-mismatch error, a unique-resource borrow of
a cell holding a component sparse set fails with `NonUnique`, and in
either direction a denied `AtomicRefCell` borrow yields `StorageBorrow`
instead. -/
theorem c8_storage_kind_and_borrow_errors :
    (∀ (c : StorageCell Nat) (req ty : String) (v : Nat),
        c.content = .uniqueOf ty v → c.state ≠ .exclusive →
        Storage.sparse_set c req = .error (.Unique req .Shared)) ∧
      (∀ (c : StorageCell Nat) (req ty : String) (v : Nat),
        c.content = .uniqueOf ty v → c.state = .free →
        Storage.sparse_set_mut c req = .error (.Unique req .Unique)) ∧
      (∀ (c : StorageCell Nat) (req ty : String) (s : SparseSet Nat),
        c.content = .sparseSetOf ty s → c.state ≠ .exclusive →
        Storage.unique c req = .error (.NonUnique req .Shared)) ∧
      (∀ (c : StorageCell Nat) (req ty : String) (s : SparseSet Nat),
        c.content = .sparseSetOf ty s → c.state = .free →
        Storage.unique_mut c req = .error (.NonUnique req .Unique)) ∧
      (∀ (c : StorageCell Nat) (req : String), c.state = .exclusive →
        Storage.sparse_set c req = .error (.StorageBorrow req .Shared) ∧
          Storage.unique c req = .error (.StorageBorrow req .Shared)) ∧
      (∀ (c : StorageCell Nat) (req : String), c.state ≠ .free →
        Storage.sparse_set_mut c req = .error (.StorageBorrow req .Unique) ∧
          Storage.unique_mut c req = .error (.StorageBorrow req .Unique)) := by
  refine ⟨?_, ?_, ?_, ?_, ?_, ?_⟩
  · intro c req ty v hcont hstate
    cases hs : c.state with
    | free => simp [Storage.sparse_set, tryBorrowCell, hs, hcont]
    | shared n => simp [Storage.sparse_set, tryBorrowCell, hs, hcont]
    | exclusive => exact absurd hs hstate
  · intro c req ty v hcont hstate
    simp [Storage.sparse_set_mut, tryBorrowMutCell, hstate, hcont]
  · intro c req ty s hcont hstate
    cases hs : c.state with
    | free => simp [Storage.unique, tryBorrowCell, hs, hcont]
    | shared n => simp [Storage.unique, tryBorrowCell, hs, hcont]
    | exclusive => exact absurd hs hstate
  · intro c req ty s hcont hstate
    simp [Storage.unique_mut, tryBorrowMutCell, hstate, hcont]
  · intro c req hstate
    exact ⟨by simp [Storage.sparse_set, tryBorrowCell, hstate],
      by simp [Storage.unique, tryBorrowCell, hstate]⟩
  · intro c req hstate
    cases hs : c.state with
    | free => exact absurd hs hstate
    | shared n =>
        exact ⟨by simp [Storage.sparse_set_mut, tryBorrowMutCell, hs],
          by simp [Storage.unique_mut, tryBorrowMutCell, hs]⟩
    | exclusive =>
        exact ⟨by simp [Storage.sparse_set_mut, tryBorrowMutCell, hs],
          by simp [Storage.unique_mut, tryBorrowMutCell, hs]⟩

/-- A free cell holding a unique resource. -/
def c8_unique_cell : StorageCell Nat := ⟨.uniqueOf "U" 5, .free⟩

/-- A free cell holding a component sparse set. -/
def c8_sparse_cell : StorageCell Nat :=
  ⟨.sparseSetOf "T" ⟨[], [], [], ⟨.NoPack, []⟩⟩, .free⟩

/-- An exclusively borrowed cell. -/
def c8_locked_cell : StorageCell Nat :=
  ⟨.sparseSetOf "T" ⟨[], [], [], ⟨.NoPack, []⟩⟩, .exclusive⟩

/-- Witness for C8 at concrete cells in every direction. -/
theorem c8_witness :
    Storage.sparse_set c8_unique_cell "T" = .error (.Unique "T" .Shared) ∧
      Storage.sparse_set_mut c8_unique_cell "T" = .error (.Unique "T" .Unique) ∧
      Storage.unique c8_sparse_cell "U" = .error (.NonUnique "U" .Shared) ∧
      Storage.unique_mut c8_sparse_cell "U" = .error (.NonUnique "U" .Unique) ∧
      (Storage.sparse_set c8_locked_cell "T" = .error (.StorageBorrow "T" .Shared) ∧
        Storage.unique c8_locked_cell "T" = .error (.StorageBorrow "T" .Shared)) ∧
      (Storage.sparse_set_mut c8_locked_cell "T" =
          .error (.StorageBorrow "T" .Unique) ∧
        Storage.unique_mut c8_locked_cell "T" =
          .error (.StorageBorrow "T" .Unique)) :=
  ⟨c8_storage_kind_and_borrow_errors.1 c8_unique_cell "T" "U" 5 rfl (by decide),
    c8_storage_kind_and_borrow_errors.2.1 c8_unique_cell "T" "U" 5 rfl rfl,
    c8_storage_kind_and_borrow_errors.2.2.1 c8_sparse_cell "U" "T"
      ⟨[], [], [], ⟨.NoPack, []⟩⟩ rfl (by decide),
    c8_storage_kind_and_borrow_errors.2.2.2.1 c8_sparse_cell "U" "T"
      ⟨[], [], [], ⟨.NoPack, []⟩⟩ rfl rfl,
    c8_storage_kind_and_borrow_errors.2.2.2.2.1 c8_locked_cell "T" rfl,
    c8_storage_kind_and_borrow_errors.2.2.2.2.2 c8_locked_cell "T" (by decide)⟩

end Shipyard
